import Mathlib

/-!
Shallow embedding of the EventFinder_5A blogging backend
(src/main.py, src/models.py, src/database.py) in Lean 4.

The database is modelled as an explicit in-memory store threaded through
every handler.  A handler returns a pair: the HTTP outcome (success value
or an HTTPException with status code and detail, exactly as raised in
main.py) and the store after the request.  Raising an exception in the
Python code commits nothing, so on the error path the handler returns the
input store unchanged.
-/

namespace EventFinder

/-- A row of the user table (models.py, class User): surrogate id, unique
email, password hash.  Relationship attributes are derived data and are
represented by lookups in the store. -/
structure User where
  id : Nat
  email : String
  password_hash : String
  deriving Repr, DecidableEq

/-- A row of the post table (models.py, class Post). -/
structure Post where
  id : Nat
  title : String
  content : String
  owner_id : Nat
  deriving Repr, DecidableEq

/-- A row of the comment table (models.py, class Comment). -/
structure Comment where
  id : Nat
  body : String
  owner_id : Nat
  post_id : Nat
  deriving Repr, DecidableEq

/-- The persistent store: the three tables plus the autoincrement counters
for their integer primary keys. -/
structure Store where
  users : List User
  posts : List Post
  comments : List Comment
  nextUserId : Nat
  nextPostId : Nat
  nextCommentId : Nat
  deriving Repr, DecidableEq

/-- fastapi.HTTPException as raised by the handlers: a status code and a
detail message. -/
structure HTTPError where
  status_code : Nat
  detail : String
  deriving Repr, DecidableEq

/-- Request body of POST /register (schema.py, class UserCreate: email and
plaintext password). -/
structure UserCreate where
  email : String
  password : String
  deriving Repr, DecidableEq

/-- Public projection of a User (UserPublic: id and email only; the
password hash is not a field of this schema). -/
structure UserPublic where
  email : String
  id : Nat
  deriving Repr, DecidableEq

/-- Request body of POST /posts/ and PUT /posts/.. (models.py,
class PostCreate): title, content and a client-supplied owner_id, all
required fields. -/
structure PostCreate where
  title : String
  content : String
  owner_id : Nat
  deriving Repr, DecidableEq

/-- Request body of comment creation and update (models.py,
class CommentCreate): body and a client-supplied owner_id, both required
fields. -/
structure CommentCreate where
  body : String
  owner_id : Nat
  deriving Repr, DecidableEq

/-- Public projection of a Comment (CommentPublic: body, id, owner_id;
post_id is not part of the projection). -/
structure CommentPublic where
  body : String
  id : Nat
  owner_id : Nat
  deriving Repr, DecidableEq

/-- Serialization of a Comment through response_model=CommentPublic. -/
def commentPublic (c : Comment) : CommentPublic :=
  { body := c.body, id := c.id, owner_id := c.owner_id }

/-- Serialization of a User through response_model=UserPublic. -/
def userPublic (u : User) : UserPublic :=
  { email := u.email, id := u.id }

/-- A raw PUT /posts/.. request body before validation: each field of
PostCreate may be present or absent. -/
structure RawPostBody where
  title : Option String
  content : Option String
  owner_id : Option Nat
  deriving Repr, DecidableEq

/-- A raw comment-update request body before validation: each field of
CommentCreate may be present or absent. -/
structure RawCommentBody where
  body : Option String
  owner_id : Option Nat
  deriving Repr, DecidableEq

/-- Pydantic validation of a request body against PostCreate: every field
of PostCreate is required, so a body missing any of them is rejected
(FastAPI then answers 422 before the handler runs). -/
def parsePostCreate (raw : RawPostBody) : Option PostCreate :=
  match raw.title, raw.content, raw.owner_id with
  | some t, some c, some o => some { title := t, content := c, owner_id := o }
  | _, _, _ => none

/-- Pydantic validation of a request body against CommentCreate: both
fields are required. -/
def parseCommentCreate (raw : RawCommentBody) : Option CommentCreate :=
  match raw.body, raw.owner_id with
  | some b, some o => some { body := b, owner_id := o }
  | _, _ => none

/-- The FastAPI response to a request body that fails validation. -/
def validationError : HTTPError :=
  { status_code := 422, detail := "Unprocessable Entity" }

/-- Modelled from the spec: auth.py is imported by main.py but absent from
the source tree.  Section 4.1 describes hash_password as a salted one-way
hash; the model is an injective tagging function, which satisfies the
spec-stated input/output relation between hashing and verification. -/
def hash_password (p : String) : String :=
  "hashed:" ++ p

/-- Modelled from the spec: auth.get_password_hash, the name under which
main.py imports the password hasher of section 4.1. -/
def get_password_hash (p : String) : String :=
  hash_password p

/-- Modelled from the spec: auth.verify_password (section 4.1) checks a
plaintext against a stored hash and returns a boolean. -/
def verify_password (plaintext hash : String) : Bool :=
  hash_password plaintext == hash

/-- Modelled from the spec: auth.create_access_token (section 4.2) issues
a signed token whose claims carry the user email. -/
def create_access_token (email : String) : String :=
  "token-for:" ++ email

/-- The response body of a successful login. -/
structure TokenResponse where
  access_token : String
  token_type : String
  deriving Repr, DecidableEq

/-- main.py register_user: reject a duplicate email with 400, otherwise
hash the password, persist the new User and return its public projection
(response_model=UserPublic). -/
def register_user (user_in : UserCreate) (s : Store) :
    Except HTTPError UserPublic × Store :=
  match s.users.find? (fun u => u.email == user_in.email) with
  | some _ =>
      (.error { status_code := 400, detail := "Email already registered" }, s)
  | none =>
      let hashed_password := get_password_hash user_in.password
      let db_user : User :=
        { id := s.nextUserId, email := user_in.email,
          password_hash := hashed_password }
      (.ok (userPublic db_user),
       { s with users := s.users ++ [db_user], nextUserId := s.nextUserId + 1 })

/-- The single HTTPException raised by login_for_access_token on any
authentication failure. -/
def invalidCredentialsError : HTTPError :=
  { status_code := 400, detail := "Incorrect username or password" }

/-- main.py login_for_access_token: look the user up by email, check the
password, raise one uniform 400 error when either step fails, otherwise
issue a bearer token. -/
def login_for_access_token (form_username form_password : String) (s : Store) :
    Except HTTPError TokenResponse × Store :=
  match s.users.find? (fun u => u.email == form_username) with
  | none => (.error invalidCredentialsError, s)
  | some user =>
      if verify_password form_password user.password_hash then
        (.ok { access_token := create_access_token user.email,
               token_type := "bearer" }, s)
      else
        (.error invalidCredentialsError, s)

/-- main.py create_post: Post.model_validate(post, update=..) builds the
row from the body but overwrites owner_id with the authenticated caller id
before persisting. -/
def create_post (post : PostCreate) (current_user : User) (s : Store) :
    Except HTTPError Post × Store :=
  let db_post : Post :=
    { id := s.nextPostId, title := post.title, content := post.content,
      owner_id := current_user.id }
  (.ok db_post,
   { s with posts := s.posts ++ [db_post], nextPostId := s.nextPostId + 1 })

/-- main.py read_post: 404 when no post has the requested id. -/
def read_post (post_id : Nat) (s : Store) : Except HTTPError Post × Store :=
  match s.posts.find? (fun p => p.id == post_id) with
  | none => (.error { status_code := 404, detail := "Post not found" }, s)
  | some post => (.ok post, s)

/-- main.py update_post: 404 when the post is absent, 403 when the caller
is not the owner; otherwise apply the body fields, with owner_id forced
back to the caller id, and persist. -/
def update_post (post_id : Nat) (post_update : PostCreate)
    (current_user : User) (s : Store) : Except HTTPError Post × Store :=
  match s.posts.find? (fun p => p.id == post_id) with
  | none => (.error { status_code := 404, detail := "Post not found" }, s)
  | some db_post =>
      if db_post.owner_id != current_user.id then
        (.error { status_code := 403,
                  detail := "Not authorized to update this post" }, s)
      else
        let updated : Post :=
          { db_post with title := post_update.title,
                         content := post_update.content,
                         owner_id := current_user.id }
        (.ok updated,
         { s with posts :=
             s.posts.map (fun p => if p.id == post_id then updated else p) })

/-- The response FastAPI sends when session.commit raises an unhandled
IntegrityError: the transaction is rolled back and the client receives a
generic 500. -/
def integrityError : HTTPError :=
  { status_code := 500, detail := "Internal Server Error" }

/-- main.py delete_post: 404 when absent, 403 when the caller is not the
owner.  On session.delete plus commit, the uncascaded Post.comments
relationship makes SQLAlchemy null the post_id foreign key of every
dependent comment during flush; comment.post_id is a NOT NULL column
(models.py), so when any comment references the post the commit fails
with IntegrityError, the transaction rolls back leaving the store
unchanged and the request fails with 500.  Only a post with no dependent
comments is actually removed. -/
def delete_post (post_id : Nat) (current_user : User) (s : Store) :
    Except HTTPError String × Store :=
  match s.posts.find? (fun p => p.id == post_id) with
  | none => (.error { status_code := 404, detail := "Post not found" }, s)
  | some post =>
      if post.owner_id != current_user.id then
        (.error { status_code := 403,
                  detail := "Not authorized to delete this post" }, s)
      else if s.comments.any (fun c => c.post_id == post_id) then
        (.error integrityError, s)
      else
        (.ok "Post deleted successfully",
         { s with posts := s.posts.filter (fun p => p.id != post_id) })

/-- main.py create_comment: 404 when the parent post is absent; otherwise
Comment.model_validate(comment, update=..) overwrites post_id with the
path parameter and owner_id with the caller id, the row is persisted and
returned through response_model=CommentPublic. -/
def create_comment (post_id : Nat) (comment : CommentCreate)
    (current_user : User) (s : Store) :
    Except HTTPError CommentPublic × Store :=
  match s.posts.find? (fun p => p.id == post_id) with
  | none => (.error { status_code := 404, detail := "Post not found" }, s)
  | some _ =>
      let db_comment : Comment :=
        { id := s.nextCommentId, body := comment.body,
          owner_id := current_user.id, post_id := post_id }
      (.ok (commentPublic db_comment),
       { s with comments := s.comments ++ [db_comment],
                nextCommentId := s.nextCommentId + 1 })

/-- main.py read_comment: 404 when no comment has the requested id. -/
def read_comment (comment_id : Nat) (s : Store) :
    Except HTTPError Comment × Store :=
  match s.comments.find? (fun c => c.id == comment_id) with
  | none => (.error { status_code := 404, detail := "Comment not found" }, s)
  | some comment => (.ok comment, s)

/-- main.py update_comment: 404 when absent, 403 when the caller is not
the owner; otherwise apply the body with owner_id forced back to the
caller id. -/
def update_comment (comment_id : Nat) (comment_update : CommentCreate)
    (current_user : User) (s : Store) : Except HTTPError Comment × Store :=
  match s.comments.find? (fun c => c.id == comment_id) with
  | none => (.error { status_code := 404, detail := "Comment not found" }, s)
  | some db_comment =>
      if db_comment.owner_id != current_user.id then
        (.error { status_code := 403,
                  detail := "Not authorized to update this comment" }, s)
      else
        let updated : Comment :=
          { db_comment with body := comment_update.body,
                            owner_id := current_user.id }
        (.ok updated,
         { s with comments :=
             s.comments.map (fun c => if c.id == comment_id then updated else c) })

/-- main.py delete_comment: 404 when absent, 403 when the caller is not
the owner, otherwise remove the comment row. -/
def delete_comment (comment_id : Nat) (current_user : User) (s : Store) :
    Except HTTPError String × Store :=
  match s.comments.find? (fun c => c.id == comment_id) with
  | none => (.error { status_code := 404, detail := "Comment not found" }, s)
  | some comment =>
      if comment.owner_id != current_user.id then
        (.error { status_code := 403,
                  detail := "Not authorized to delete this comment" }, s)
      else
        (.ok "Comment deleted successfully",
         { s with comments := s.comments.filter (fun c => c.id != comment_id) })

/-- The PUT /posts/.. endpoint including the FastAPI validation layer: the
raw body is validated against PostCreate before the handler runs, and a
body missing a required field is answered 422 with no handler call. -/
def put_post_endpoint (post_id : Nat) (raw : RawPostBody)
    (current_user : User) (s : Store) : Except HTTPError Post × Store :=
  match parsePostCreate raw with
  | none => (.error validationError, s)
  | some post_update => update_post post_id post_update current_user s

/-- The PUT /comments/.. endpoint including the FastAPI validation layer. -/
def put_comment_endpoint (comment_id : Nat) (raw : RawCommentBody)
    (current_user : User) (s : Store) : Except HTTPError Comment × Store :=
  match parseCommentCreate raw with
  | none => (.error validationError, s)
  | some comment_update => update_comment comment_id comment_update current_user s

/-- database.py: DATABASE_URL is read from the environment at import time
and a falsy value (absent or empty) aborts startup with an error, before
the application object is even constructed. -/
def loadDatabaseUrl (databaseUrlEnv : Option String) : Except String String :=
  match databaseUrlEnv with
  | none => .error "DATABASE_URL is not set in the .env file"
  | some url =>
      if url == "" then .error "DATABASE_URL is not set in the .env file"
      else .ok url

/-- Concrete fixture: a registered user. -/
def alice : User :=
  { id := 1, email := "alice@x.com", password_hash := hash_password "pw1" }

/-- Concrete fixture: a second registered user. -/
def bob : User :=
  { id := 2, email := "bob@x.com", password_hash := hash_password "pw2" }

/-- Concrete fixture: a post owned by alice. -/
def post1 : Post :=
  { id := 1, title := "t1", content := "c1", owner_id := 1 }

/-- Concrete fixture: a comment by alice on post1. -/
def comment1 : Comment :=
  { id := 1, body := "hello", owner_id := 1, post_id := 1 }

/-- Concrete fixture: a store with two users, one post and one comment. -/
def st1 : Store :=
  { users := [alice, bob], posts := [post1], comments := [comment1],
    nextUserId := 3, nextPostId := 2, nextCommentId := 2 }

/-- Concrete fixture: the same store with an empty comment table, so that
post1 has no dependents. -/
def stNoComments : Store :=
  { st1 with comments := [] }

/-- The password hash model is injective, which is what the verification
relation of the spec requires of it. -/
theorem hash_password_injective {p q : String}
    (h : hash_password p = hash_password q) : p = q := by
  have hd : ("hashed:" ++ p).data = ("hashed:" ++ q).data :=
    congrArg String.data h
  rw [String.data_append, String.data_append] at hd
  exact String.ext (List.append_cancel_left hd)

/-- C9: if DATABASE_URL is absent from the environment at startup, startup
fails with a fatal error (the ValueError raised at import time in
database.py), before the application serves any request. -/
theorem C9_missing_database_url_is_fatal :
    loadDatabaseUrl none = .error "DATABASE_URL is not set in the .env file" :=
  rfl

/-- C8: verification succeeds on the hash of the same plaintext and fails
on the hash of any different plaintext (spec section 4.1 and section 8,
modelled from the spec since auth.py is absent from the source tree). -/
theorem C8_verify_hash_roundtrip (p q : String) :
    verify_password p (hash_password p) = true ∧
    (p ≠ q → verify_password p (hash_password q) = false) := by
  constructor
  · simp [verify_password]
  · intro hne
    simp only [verify_password, beq_eq_false_iff_ne, ne_eq]
    exact fun hc => hne (hash_password_injective hc)

/-- C8 witness at a concrete pair of distinct passwords. -/
theorem C8_verify_hash_roundtrip_witness :
    verify_password "pw1" (hash_password "pw1") = true ∧
    verify_password "pw1" (hash_password "pw2") = false :=
  ⟨(C8_verify_hash_roundtrip "pw1" "pw2").1,
   (C8_verify_hash_roundtrip "pw1" "pw2").2 (by decide)⟩

/-- C4: a login whose email lookup fails and a login whose password
verification fails both return the very same error value (status 400,
detail "Incorrect username or password"), so the two failure causes are
observationally indistinguishable; a successful login returns a bearer
token issued for the found user. -/
theorem C4_login_uniform_failure (form_username form_password : String)
    (s : Store) :
    (s.users.find? (fun u => u.email == form_username) = none →
      login_for_access_token form_username form_password s =
        (.error invalidCredentialsError, s)) ∧
    (∀ user, s.users.find? (fun u => u.email == form_username) = some user →
      verify_password form_password user.password_hash = false →
      login_for_access_token form_username form_password s =
        (.error invalidCredentialsError, s)) ∧
    (∀ user, s.users.find? (fun u => u.email == form_username) = some user →
      verify_password form_password user.password_hash = true →
      login_for_access_token form_username form_password s =
        (.ok { access_token := create_access_token user.email,
               token_type := "bearer" }, s)) ∧
    invalidCredentialsError =
      { status_code := 400, detail := "Incorrect username or password" } := by
  refine ⟨?_, ?_, ?_, rfl⟩
  · intro h; simp [login_for_access_token, h]
  · intro user h hv; simp [login_for_access_token, h, hv]
  · intro user h hv; simp [login_for_access_token, h, hv]

/-- C4 witness: unknown email and wrong password yield the identical
error on the concrete store, and the correct password yields a token. -/
theorem C4_login_uniform_failure_witness :
    login_for_access_token "nobody@x.com" "pw1" st1 =
      (.error invalidCredentialsError, st1) ∧
    login_for_access_token "alice@x.com" "wrong" st1 =
      (.error invalidCredentialsError, st1) ∧
    login_for_access_token "alice@x.com" "pw1" st1 =
      (.ok { access_token := create_access_token "alice@x.com",
             token_type := "bearer" }, st1) :=
  ⟨(C4_login_uniform_failure "nobody@x.com" "pw1" st1).1 (by decide),
   (C4_login_uniform_failure "alice@x.com" "wrong" st1).2.1 alice (by decide)
     (by decide),
   (C4_login_uniform_failure "alice@x.com" "pw1" st1).2.2.1 alice (by decide)
     (by decide)⟩

/-- C6: reading, updating or deleting a Post or Comment whose id does not
exist fails with 404 for every caller, owner or not: the NotFound check
precedes the ownership comparison, so a missing resource never yields
403. -/
theorem C6_missing_resource_yields_404 (pid cid : Nat) (pc : PostCreate)
    (cc : CommentCreate) (u : User) (s : Store)
    (hp : s.posts.find? (fun p => p.id == pid) = none)
    (hc : s.comments.find? (fun c => c.id == cid) = none) :
    read_post pid s = (.error { status_code := 404, detail := "Post not found" }, s) ∧
    update_post pid pc u s = (.error { status_code := 404, detail := "Post not found" }, s) ∧
    delete_post pid u s = (.error { status_code := 404, detail := "Post not found" }, s) ∧
    read_comment cid s = (.error { status_code := 404, detail := "Comment not found" }, s) ∧
    update_comment cid cc u s = (.error { status_code := 404, detail := "Comment not found" }, s) ∧
    delete_comment cid u s = (.error { status_code := 404, detail := "Comment not found" }, s) := by
  refine ⟨?_, ?_, ?_, ?_, ?_, ?_⟩ <;>
    simp [read_post, update_post, delete_post, read_comment, update_comment,
          delete_comment, hp, hc]

/-- C6 witness: id 999 exists neither as a post nor as a comment in the
concrete store, and every operation on it returns 404 even for bob, who
owns nothing. -/
theorem C6_missing_resource_yields_404_witness :
    update_post 999 { title := "t", content := "c", owner_id := 2 } bob st1 =
      (.error { status_code := 404, detail := "Post not found" }, st1) ∧
    delete_comment 999 bob st1 =
      (.error { status_code := 404, detail := "Comment not found" }, st1) := by
  have h := C6_missing_resource_yields_404 999 999
    { title := "t", content := "c", owner_id := 2 }
    { body := "b", owner_id := 2 } bob st1 (by decide) (by decide)
  exact ⟨h.2.1, h.2.2.2.2.2⟩

/-- C2: updating or deleting an existing Post or Comment whose owner is
not the caller fails with 403 and returns the store unchanged, for every
request body. -/
theorem C2_non_owner_mutation_forbidden (pid cid : Nat) (pc : PostCreate)
    (cc : CommentCreate) (u : User) (s : Store) (p : Post) (c : Comment)
    (hp : s.posts.find? (fun q => q.id == pid) = some p)
    (hpo : p.owner_id ≠ u.id)
    (hc : s.comments.find? (fun q => q.id == cid) = some c)
    (hco : c.owner_id ≠ u.id) :
    update_post pid pc u s =
      (.error { status_code := 403, detail := "Not authorized to update this post" }, s) ∧
    delete_post pid u s =
      (.error { status_code := 403, detail := "Not authorized to delete this post" }, s) ∧
    update_comment cid cc u s =
      (.error { status_code := 403, detail := "Not authorized to update this comment" }, s) ∧
    delete_comment cid u s =
      (.error { status_code := 403, detail := "Not authorized to delete this comment" }, s) := by
  refine ⟨?_, ?_, ?_, ?_⟩ <;>
    simp [update_post, delete_post, update_comment, delete_comment,
          hp, hc, bne_iff_ne, hpo, hco]

/-- C2 witness: bob attempts to mutate the post and the comment owned by
alice; every attempt returns 403 and the concrete store is returned
unchanged. -/
theorem C2_non_owner_mutation_forbidden_witness :
    update_post 1 { title := "hijack", content := "x", owner_id := 2 } bob st1 =
      (.error { status_code := 403, detail := "Not authorized to update this post" }, st1) ∧
    delete_post 1 bob st1 =
      (.error { status_code := 403, detail := "Not authorized to delete this post" }, st1) ∧
    update_comment 1 { body := "hijack", owner_id := 2 } bob st1 =
      (.error { status_code := 403, detail := "Not authorized to update this comment" }, st1) ∧
    delete_comment 1 bob st1 =
      (.error { status_code := 403, detail := "Not authorized to delete this comment" }, st1) :=
  C2_non_owner_mutation_forbidden 1 1
    { title := "hijack", content := "x", owner_id := 2 }
    { body := "hijack", owner_id := 2 } bob st1 post1 comment1
    (by decide) (by decide) (by decide) (by decide)

/-- C1: every successful create or update of a Post or Comment stores and
returns a resource whose owner_id is the authenticated caller id, for
every request body, so the client-supplied owner_id field of PostCreate
and CommentCreate is never used. -/
theorem C1_owner_id_always_caller (pc : PostCreate) (cc : CommentCreate)
    (pid cid : Nat) (u : User) (s : Store) :
    (∀ p s2, create_post pc u s = (.ok p, s2) →
       p.owner_id = u.id ∧ p ∈ s2.posts) ∧
    (∀ p s2, update_post pid pc u s = (.ok p, s2) →
       p.owner_id = u.id ∧ p ∈ s2.posts) ∧
    (∀ cp s2, create_comment pid cc u s = (.ok cp, s2) →
       cp.owner_id = u.id ∧
       ∃ c ∈ s2.comments, commentPublic c = cp ∧ c.owner_id = u.id) ∧
    (∀ c s2, update_comment cid cc u s = (.ok c, s2) →
       c.owner_id = u.id ∧ c ∈ s2.comments) := by
  refine ⟨?_, ?_, ?_, ?_⟩
  · intro p s2 h
    simp only [create_post, Prod.mk.injEq, Except.ok.injEq] at h
    obtain ⟨hp, hs⟩ := h
    subst hp; subst hs
    exact ⟨rfl, by simp⟩
  · intro p s2 h
    unfold update_post at h
    rcases hf : s.posts.find? (fun q => q.id == pid) with _ | db_post <;>
      rw [hf] at h
    · simp at h
    · by_cases ho : db_post.owner_id = u.id
      · simp only [ho, bne_self_eq_false, Bool.false_eq_true, if_false,
                   Prod.mk.injEq, Except.ok.injEq] at h
        obtain ⟨hp, hs⟩ := h
        subst hp; subst hs
        refine ⟨rfl, ?_⟩
        have hmem := List.mem_of_find?_eq_some hf
        have hid : (db_post.id == pid) = true := by
          simpa using List.find?_some hf
        exact List.mem_map.mpr ⟨db_post, hmem, by simp [hid]⟩
      · simp [bne_iff_ne, ho] at h
  · intro cp s2 h
    unfold create_comment at h
    rcases hf : s.posts.find? (fun q => q.id == pid) with _ | pst <;>
      rw [hf] at h
    · simp at h
    · simp only [Prod.mk.injEq, Except.ok.injEq] at h
      obtain ⟨hp, hs⟩ := h
      subst hp; subst hs
      exact ⟨rfl, { id := s.nextCommentId, body := cc.body,
                    owner_id := u.id, post_id := pid }, by simp, rfl, rfl⟩
  · intro c s2 h
    unfold update_comment at h
    rcases hf : s.comments.find? (fun q => q.id == cid) with _ | db_comment <;>
      rw [hf] at h
    · simp at h
    · by_cases ho : db_comment.owner_id = u.id
      · simp only [ho, bne_self_eq_false, Bool.false_eq_true, if_false,
                   Prod.mk.injEq, Except.ok.injEq] at h
        obtain ⟨hp, hs⟩ := h
        subst hp; subst hs
        refine ⟨rfl, ?_⟩
        have hmem := List.mem_of_find?_eq_some hf
        have hid : (db_comment.id == cid) = true := by
          simpa using List.find?_some hf
        exact List.mem_map.mpr ⟨db_comment, hmem, by simp [hid]⟩
      · simp [bne_iff_ne, ho] at h

/-- C1 witness: alice creates a post with a body that claims owner_id 99;
the stored post is owned by alice. -/
theorem C1_owner_id_always_caller_witness :
    Post.owner_id { id := 2, title := "t", content := "c", owner_id := 1 } = alice.id ∧
    { id := 2, title := "t", content := "c", owner_id := 1 } ∈
      Store.posts { st1 with
        posts := st1.posts ++ [{ id := 2, title := "t", content := "c", owner_id := 1 }],
        nextPostId := 3 } :=
  (C1_owner_id_always_caller
      { title := "t", content := "c", owner_id := 99 }
      { body := "b", owner_id := 99 } 1 1 alice st1).1
    { id := 2, title := "t", content := "c", owner_id := 1 }
    { st1 with
      posts := st1.posts ++ [{ id := 2, title := "t", content := "c", owner_id := 1 }],
      nextPostId := 3 }
    rfl

/-- C7: comment creation under a nonexistent post id fails with 404 and
creates nothing; under an existing post it persists a comment whose
post_id is the path parameter and whose owner_id is the caller id, and
returns its public projection. -/
theorem C7_create_comment (pid : Nat) (cc : CommentCreate) (u : User)
    (s : Store) :
    (s.posts.find? (fun p => p.id == pid) = none →
      create_comment pid cc u s =
        (.error { status_code := 404, detail := "Post not found" }, s)) ∧
    (∀ p, s.posts.find? (fun q => q.id == pid) = some p →
      create_comment pid cc u s =
        (.ok (commentPublic { id := s.nextCommentId, body := cc.body,
                              owner_id := u.id, post_id := pid }),
         { s with
           comments := s.comments ++
             [{ id := s.nextCommentId, body := cc.body,
                owner_id := u.id, post_id := pid }],
           nextCommentId := s.nextCommentId + 1 })) := by
  constructor
  · intro h; simp [create_comment, h]
  · intro p h; simp [create_comment, h]

/-- C7 witness: bob comments on the existing post 1 and on the missing
post 999 of the concrete store. -/
theorem C7_create_comment_witness :
    create_comment 1 { body := "nice", owner_id := 99 } bob st1 =
      (.ok { body := "nice", id := 2, owner_id := 2 },
       { st1 with
         comments := st1.comments ++
           [{ id := 2, body := "nice", owner_id := 2, post_id := 1 }],
         nextCommentId := 3 }) ∧
    create_comment 999 { body := "nice", owner_id := 99 } bob st1 =
      (.error { status_code := 404, detail := "Post not found" }, st1) :=
  ⟨(C7_create_comment 1 { body := "nice", owner_id := 99 } bob st1).2
      post1 (by decide),
   (C7_create_comment 999 { body := "nice", owner_id := 99 } bob st1).1
      (by decide)⟩

/-- C3: registration with an email already present fails with 400 and
leaves the store unchanged; with a fresh email it persists exactly one new
User whose password_hash is the hash of the supplied password and returns
the public projection, which by construction carries only email and id;
registering the same email again on the resulting store then fails with
the duplicate-email error. -/
theorem C3_register (user_in : UserCreate) (s : Store) :
    ((∃ u ∈ s.users, u.email = user_in.email) →
      register_user user_in s =
        (.error { status_code := 400, detail := "Email already registered" }, s)) ∧
    ((∀ u ∈ s.users, u.email ≠ user_in.email) →
      ∃ db_user : User,
        register_user user_in s =
          (.ok (userPublic db_user),
           { s with users := s.users ++ [db_user],
                    nextUserId := s.nextUserId + 1 }) ∧
        db_user.password_hash = get_password_hash user_in.password ∧
        db_user.email = user_in.email ∧
        userPublic db_user = { email := user_in.email, id := s.nextUserId } ∧
        (register_user user_in
           { s with users := s.users ++ [db_user],
                    nextUserId := s.nextUserId + 1 }).1 =
          .error { status_code := 400, detail := "Email already registered" }) := by
  constructor
  · rintro ⟨u0, hmem, hemail⟩
    have hsome : (s.users.find? (fun u => u.email == user_in.email)).isSome := by
      rw [List.find?_isSome]
      exact ⟨u0, hmem, by simp [hemail]⟩
    rcases hopt : s.users.find? (fun u => u.email == user_in.email) with _ | w
    · rw [hopt] at hsome; simp at hsome
    · simp [register_user, hopt]
  · intro hall
    have hfn : s.users.find? (fun u => u.email == user_in.email) = none := by
      rw [List.find?_eq_none]
      intro x hx
      simp [hall x hx]
    refine ⟨{ id := s.nextUserId, email := user_in.email,
              password_hash := get_password_hash user_in.password },
            ?_, rfl, rfl, rfl, ?_⟩
    · simp [register_user, hfn]
    · simp [register_user, List.find?_append, hfn, List.find?]

/-- C3 witness: a fresh email registers on the concrete store and the same
email is then rejected as a duplicate. -/
theorem C3_register_witness :
    (register_user { email := "carol@x.com", password := "pw3" } st1).1 =
      .ok { email := "carol@x.com", id := 3 } ∧
    (register_user { email := "alice@x.com", password := "pw1" } st1).1 =
      .error { status_code := 400, detail := "Email already registered" } := by
  constructor
  · obtain ⟨db, heq, -, -, hpub, -⟩ :=
      (C3_register { email := "carol@x.com", password := "pw3" } st1).2
        (by decide)
    rw [heq]
    simp only []
    rw [hpub]
    rfl
  · have h :=
      (C3_register { email := "alice@x.com", password := "pw1" } st1).1
        ⟨alice, by decide, rfl⟩
    rw [h]

/-- C10 counterexample: in the concrete store, comment 1 references
post 1 and alice owns post 1, yet her DELETE of post 1 does not succeed:
the flush nulls the NOT NULL post_id of the dependent comment, the commit
fails with IntegrityError and is rolled back, and the request fails with
500 leaving the store unchanged — there is no successful deletion of a
commented post after which its comments would survive with a dangling
post_id, as the claim asserts. -/
theorem C10_counterexample_delete_with_comments_fails :
    comment1 ∈ st1.comments ∧
    comment1.post_id = 1 ∧
    st1.posts.find? (fun p => p.id == 1) = some post1 ∧
    post1.owner_id = alice.id ∧
    delete_post 1 alice st1 = (.error integrityError, st1) :=
  ⟨by decide, rfl, rfl, rfl, rfl⟩

/-- C10 amended: deleting a Post never deletes or modifies its Comments,
but a post that still has comments cannot be deleted at all: when some
comment references the post, the commit fails with IntegrityError (the
uncascaded relationship nulls its NOT NULL post_id during flush), the
request fails with 500 and the store is unchanged; when no comment
references the post the deletion succeeds, removes the post and leaves the
comment table exactly as it was, so a dangling post_id never arises on a
successful delete. -/
theorem C10_delete_post_comments_integrity (pid : Nat) (u : User) (s : Store)
    (p : Post)
    (hf : s.posts.find? (fun q => q.id == pid) = some p)
    (ho : p.owner_id = u.id) :
    ((∃ c ∈ s.comments, c.post_id = pid) →
      delete_post pid u s = (.error integrityError, s)) ∧
    ((∀ c ∈ s.comments, c.post_id ≠ pid) →
      delete_post pid u s =
        (.ok "Post deleted successfully",
         { s with posts := s.posts.filter (fun q => q.id != pid) })) ∧
    (∀ msg s2, delete_post pid u s = (.ok msg, s2) →
      s2.comments = s.comments ∧ ∀ c ∈ s2.comments, c.post_id ≠ pid) := by
  refine ⟨?_, ?_, ?_⟩
  · rintro ⟨c0, hmem, hcp⟩
    have hany : s.comments.any (fun c => c.post_id == pid) = true := by
      rw [List.any_eq_true]
      exact ⟨c0, hmem, by simp [hcp]⟩
    simp [delete_post, hf, ho, bne_self_eq_false, hany]
  · intro hall
    have hany : s.comments.any (fun c => c.post_id == pid) = false := by
      rw [Bool.eq_false_iff, Ne, List.any_eq_true]
      rintro ⟨c0, hmem, hcp⟩
      exact hall c0 hmem (by simpa using hcp)
    simp [delete_post, hf, ho, bne_self_eq_false, hany]
  · intro msg s2 h
    unfold delete_post at h
    rw [hf] at h
    simp only [ho, bne_self_eq_false, Bool.false_eq_true, if_false] at h
    rcases hany : s.comments.any (fun c => c.post_id == pid) with _ | _ <;>
      rw [hany] at h
    · simp only [Bool.false_eq_true, if_false, Prod.mk.injEq,
                 Except.ok.injEq] at h
      obtain ⟨-, hs⟩ := h
      subst hs
      refine ⟨rfl, ?_⟩
      intro c hc hcp
      rw [Bool.eq_false_iff, Ne, List.any_eq_true] at hany
      exact hany ⟨c, hc, by simp [hcp]⟩
    · simp at h

/-- C10 amended witness: alice cannot delete the commented post 1 of the
concrete store (500, store unchanged), and deletes the same post
successfully once the comment table is empty, the comment table staying
as it was. -/
theorem C10_delete_post_comments_integrity_witness :
    delete_post 1 alice st1 = (.error integrityError, st1) ∧
    delete_post 1 alice stNoComments =
      (.ok "Post deleted successfully",
       { stNoComments with
         posts := stNoComments.posts.filter (fun q => q.id != 1) }) :=
  ⟨(C10_delete_post_comments_integrity 1 alice st1 post1 (by decide) rfl).1
     ⟨comment1, by decide, rfl⟩,
   (C10_delete_post_comments_integrity 1 alice stNoComments post1
     (by decide) rfl).2.1 (by decide)⟩

/-- C5 counterexample: a PUT /posts/1 body that supplies only title, sent
by the owner of the existing post 1, is not partially applied: the body
fails PostCreate validation (content and owner_id are required fields) and
the request is rejected with 422, leaving the store unchanged, whereas the
claim predicts a successful update that applies title and keeps content. -/
theorem C5_counterexample_partial_body_rejected :
    st1.posts.find? (fun p => p.id == 1) = some post1 ∧
    post1.owner_id = alice.id ∧
    put_post_endpoint 1
      { title := some "new title", content := none, owner_id := none }
      alice st1 = (.error validationError, st1) :=
  ⟨rfl, rfl, rfl⟩

/-- C5 amended: PostCreate and CommentCreate declare every field required,
so PUT bodies have no partial semantics: a body missing any field is
rejected with a validation error and the resource is unchanged, and a body
containing all fields replaces every updatable field of the resource
(title and content of a post, body of a comment), the id being preserved
and owner_id forced to the caller id. -/
theorem C5_put_replaces_all_fields (pid cid : Nat) (rawp : RawPostBody)
    (rawc : RawCommentBody) (u : User) (s : Store) :
    (parsePostCreate rawp = none →
      put_post_endpoint pid rawp u s = (.error validationError, s)) ∧
    (∀ pc db_post, parsePostCreate rawp = some pc →
      s.posts.find? (fun p => p.id == pid) = some db_post →
      db_post.owner_id = u.id →
      put_post_endpoint pid rawp u s =
        (.ok { db_post with title := pc.title, content := pc.content,
                            owner_id := u.id },
         { s with posts := s.posts.map (fun p =>
             if p.id == pid then
               { db_post with title := pc.title, content := pc.content,
                              owner_id := u.id }
             else p) })) ∧
    (parseCommentCreate rawc = none →
      put_comment_endpoint cid rawc u s = (.error validationError, s)) ∧
    (∀ cc db_comment, parseCommentCreate rawc = some cc →
      s.comments.find? (fun c => c.id == cid) = some db_comment →
      db_comment.owner_id = u.id →
      put_comment_endpoint cid rawc u s =
        (.ok { db_comment with body := cc.body, owner_id := u.id },
         { s with comments := s.comments.map (fun c =>
             if c.id == cid then
               { db_comment with body := cc.body, owner_id := u.id }
             else c) })) := by
  refine ⟨?_, ?_, ?_, ?_⟩
  · intro h; simp [put_post_endpoint, h]
  · intro pc db_post hparse hfind howner
    simp [put_post_endpoint, hparse, update_post, hfind, howner,
          bne_self_eq_false]
  · intro h; simp [put_comment_endpoint, h]
  · intro cc db_comment hparse hfind howner
    simp [put_comment_endpoint, hparse, update_comment, hfind, howner,
          bne_self_eq_false]

/-- C5 amended witness: a complete body replaces title and content of the
concrete post 1, and a comment body missing its fields is rejected. -/
theorem C5_put_replaces_all_fields_witness :
    put_post_endpoint 1
      { title := some "t2", content := some "c2", owner_id := some 99 }
      alice st1 =
      (.ok { post1 with title := "t2", content := "c2", owner_id := alice.id },
       { st1 with posts := st1.posts.map (fun p =>
           if p.id == 1 then
             { post1 with title := "t2", content := "c2",
                          owner_id := alice.id }
           else p) }) ∧
    put_comment_endpoint 1 { body := none, owner_id := none } alice st1 =
      (.error validationError, st1) :=
  ⟨(C5_put_replaces_all_fields 1 1
      { title := some "t2", content := some "c2", owner_id := some 99 }
      { body := none, owner_id := none } alice st1).2.1
      { title := "t2", content := "c2", owner_id := 99 } post1 rfl rfl rfl,
   (C5_put_replaces_all_fields 1 1
      { title := some "t2", content := some "c2", owner_id := some 99 }
      { body := none, owner_id := none } alice st1).2.2.1 rfl⟩

end EventFinder
